import Mathlib

/-!
Verification of the batch task executor in `src/data/template.py`.

This file gives a shallow embedding of the executor: the pydantic models
(`LibraryConfig`, `TaskConfig`, `AppConfig` with its uniqueness validator),
the task runner `process_task`, the iterator wrapper
`GeneratorErrorHandler.__next__`, and the driver `main` (submission loop,
summary and exit-status computation).  Python floats are modelled as
rationals, exceptions as `Except` values tagged with strings, and wall-clock
time as an explicit reading sequence `clock : Nat -> Rat` where `clock n` is
the value returned by the n-th `datetime.utcnow()` call.
-/

namespace Pcpa

/-- Exceptions are modelled by their message string. -/
abbrev Exc := String

/-- A Python parameter value: the `params` dict of a task maps strings to
arbitrary scalars; we model strings and numbers, which is what the code
inspects (`lib_name` must be a string key of the registry dict). -/
inductive PVal where
  | str (s : String)
  | num (q : ℚ)
deriving DecidableEq, Repr

/-- Model of `LibraryConfig` (template.py lines 16-18). -/
structure LibraryConfig where
  name : String
  version : String
deriving DecidableEq, Repr

/-- Model of `TaskConfig` (template.py lines 20-23): an id, a params dict
(association list), and the business-value weight `expected_value`. -/
structure TaskConfig where
  id : String
  params : List (String × PVal)
  expected_value : ℚ
deriving DecidableEq, Repr

/-- A resolved library module: it exposes `compute(**params)`, which either
returns a result or raises (modelled as `Except`).  This is the opaque
capability object stored in the `libs` dict built at template.py line 150. -/
structure Capability where
  compute : List (String × PVal) → Except Exc PVal

/-- Model of the `metrics` dict created at template.py lines 152-158.
The key `generator_errors` is absent from the initial dict and only created
by `setdefault` at line 64; the absent key is modelled as `none`. -/
structure RunMetrics where
  task_count : ℕ
  success_count : ℕ
  failure_count : ℕ
  durations : List ℚ
  business_value : ℚ
  generator_errors : Option ℕ
deriving DecidableEq, Repr

/-- The initial metrics dict (template.py lines 152-158). -/
def initMetrics : RunMetrics :=
  { task_count := 0, success_count := 0, failure_count := 0,
    durations := [], business_value := 0, generator_errors := none }

/-- The value of `metrics.get('generator_errors', 0)` (template.py line 190). -/
def genErrorCount (m : RunMetrics) : ℕ :=
  m.generator_errors.getD 0

/-- The value returned by `process_task`: the `(task.id, result)` pair, where
`result` is `None` on failure (template.py lines 114 and 119). -/
structure TaskOutcome where
  task_id : String
  result : Option PVal
deriving DecidableEq, Repr

/-- Model of `libs.get(task.params.get('lib_name'))` followed by the
truthiness test `if not lib` (template.py lines 104-105): a missing or
non-string `lib_name` value is never a key of the string-keyed `libs` dict,
and a present module object is always truthy. -/
def lookupLib (libs : List (String × Capability)) (params : List (String × PVal)) :
    Option Capability :=
  match params.lookup "lib_name" with
  | some (.str s) => libs.lookup s
  | _ => none

/-- Model of the `try:` body of `process_task` (template.py lines 102-114).
The clock reading `clock i` is `start` (line 103, taken before the registry
lookup); on success a second reading `clock (i+1)` is taken right after
`compute` returns (line 108) and the difference is the appended duration.
An error is raised either by the explicit `raise RuntimeError` when the
lookup fails (line 106) or by `compute` itself (line 107); in both cases the
body has mutated nothing and consumed exactly the one `start` reading.
On success it returns the updated metrics, the `(task.id, result)` pair, the
next clock index, the appended duration and the info log line (line 113). -/
def process_task_body (clock : ℕ → ℚ) (i : ℕ) (task : TaskConfig)
    (libs : List (String × Capability)) (m : RunMetrics) :
    Except Exc (RunMetrics × TaskOutcome × ℕ × ℚ × List String) :=
  let start := clock i
  match lookupLib libs task.params with
  | none => .error ("Library not configured")
  | some lib =>
    match lib.compute task.params with
    | .error e => .error e
    | .ok r =>
      let duration := clock (i + 1) - start
      .ok ({ m with
               task_count := m.task_count + 1,
               success_count := m.success_count + 1,
               durations := m.durations ++ [duration],
               business_value := m.business_value + task.expected_value },
           ⟨task.id, some r⟩, i + 2, duration,
           ["Task " ++ task.id ++ " succeeded"])

/-- Model of `process_task` (template.py lines 100-119): the `try:` body plus
the `except Exception:` handler (lines 115-119), which converts any raised
error into a counted failure (`task_count` and `failure_count` incremented on
the metrics as they were when the error was raised, which is the entry value
since the body mutates nothing before raising), logs the failure (line 118)
and returns `(task.id, None)`.  The result tuple is
(metrics, outcome, next clock index, duration measured around the compute
call if one was measured, log lines emitted).  Totality of this function
models the fact that `process_task` returns normally on every path. -/
def process_task (clock : ℕ → ℚ) (i : ℕ) (task : TaskConfig)
    (libs : List (String × Capability)) (m : RunMetrics) :
    RunMetrics × TaskOutcome × ℕ × Option ℚ × List String :=
  match process_task_body clock i task libs m with
  | .ok (m', out, i', d, logs) => (m', out, i', some d, logs)
  | .error _ =>
      ({ m with task_count := m.task_count + 1,
                failure_count := m.failure_count + 1 },
       ⟨task.id, none⟩, i + 1, none,
       ["Task " ++ task.id ++ " failed"])

/-- Model of the `trace` decorator applied to `process_task` (template.py
lines 89-100): it reads the clock once at entry and once at exit (success or
failure alike) and logs the whole-invocation difference at debug level.  The
last component is that trace-logged duration; it spans the registry lookup,
the metric updates and the log formatting, not just the compute call. -/
def process_task_traced (clock : ℕ → ℚ) (i : ℕ) (task : TaskConfig)
    (libs : List (String × Capability)) (m : RunMetrics) :
    RunMetrics × TaskOutcome × ℕ × Option ℚ × ℚ :=
  let t0 := clock i
  let (m', out, i', d, _) := process_task clock (i + 1) task libs m
  let t1 := clock i'
  (m', out, i' + 1, d, t1 - t0)

/-- Outcome of one `__next__` call on the wrapped stream: `StopIteration`
(end of sequence), a produced task, or a re-raised production error. -/
inductive StreamStep where
  | stop
  | item (t : TaskConfig)
  | err (e : Exc)
deriving DecidableEq, Repr

/-- Model of `GeneratorErrorHandler.__next__` (template.py lines 54-66).
The underlying generator is modelled by the list of its remaining pulls,
each either producing a task or raising.  `shutdown` is the value of
`shutdown_event.is_set()` at entry (line 55).  Behaviour:
line 55-56 shutdown set: raise `StopIteration` at once, without advancing the
underlying generator or touching the metrics; lines 59-60 `StopIteration`
from the underlying generator is re-raised untouched; lines 61-66 any other
exception is logged (line 62), `generator_errors` is created by `setdefault`
and incremented (lines 64-65), and the same error is re-raised (line 66).
The result is (step, remaining source, metrics, log lines). -/
def generatorHandlerNext (shutdown : Bool) (src : List (Except Exc TaskConfig))
    (m : RunMetrics) :
    StreamStep × List (Except Exc TaskConfig) × RunMetrics × List String :=
  if shutdown then (.stop, src, m, [])
  else
    match src with
    | [] => (.stop, [], m, [])
    | .ok t :: rest => (.item t, rest, m, [])
    | .error e :: rest =>
        (.err e, rest,
         { m with generator_errors := some (genErrorCount m + 1) },
         ["Error in generator: " ++ e])

/-- Model of `AppConfig` (template.py lines 25-28). -/
structure AppConfig where
  threads : ℕ
  libraries : List LibraryConfig
  tasks : List TaskConfig
deriving DecidableEq, Repr

/-- Model of the root validator `check_unique_libraries_and_tasks`
(template.py lines 30-38): the Python code compares the cardinality of the
set of names (resp. ids) with the list length; set cardinality is modelled
by `List.dedup`.  A `ValueError` raised here is wrapped by pydantic into a
`ValidationError`, i.e. construction fails with a validation error rather
than crashing. -/
def check_unique_libraries_and_tasks (cfg : AppConfig) : Except Exc AppConfig :=
  if (cfg.libraries.map LibraryConfig.name).dedup.length ≠ cfg.libraries.length then
    .error "Duplicate library names in configuration"
  else if (cfg.tasks.map TaskConfig.id).dedup.length ≠ cfg.tasks.length then
    .error "Duplicate task IDs in configuration"
  else
    .ok cfg

/-- Model of `AppConfig.parse_obj` (template.py line 145): pydantic field
validation (`threads` must be strictly positive, line 26) followed by the
root validator. -/
def parse_obj (cfg : AppConfig) : Except Exc AppConfig :=
  if cfg.threads = 0 then .error "threads must be greater than 0"
  else check_unique_libraries_and_tasks cfg

/-- Model of the submission loop of `main` (template.py lines 169-174),
executed sequentially: each iteration performs one `__next__` of the
`GeneratorErrorHandler` (semantics of `generatorHandlerNext`, here unfolded
so the recursion is structural on the source list; the agreement is proved
in `mainLoop_agrees_generatorHandlerNext`), then re-checks the shutdown flag
(line 170) and submits the task, whose `process_task` call runs to
completion.  Running each task at its submission point is faithful for the
final metrics and outcome multiset because `wait` (line 174) and the
executor shutdown force every submitted future to complete before the
summary is read, and the flag is modelled as constant over the run.
A production error re-raised by the handler escapes the `for` loop
(second component `some e`), aborting further submissions.
Result: (final metrics, uncaught error, outcomes of executed tasks,
next clock index). -/
def mainLoop (clock : ℕ → ℚ) (shutdown : Bool)
    (libs : List (String × Capability)) :
    List (Except Exc TaskConfig) → ℕ → RunMetrics →
    RunMetrics × Option Exc × List TaskOutcome × ℕ
  | [], i, m => (m, none, [], i)
  | e :: rest, i, m =>
    if shutdown then (m, none, [], i)
    else
      match e with
      | .error exc =>
          ({ m with generator_errors := some (genErrorCount m + 1) },
           some exc, [], i)
      | .ok t =>
          let (m', out, i', _, _) := process_task clock i t libs m
          let (mf, fatal, outs, i2) := mainLoop clock shutdown libs rest i' m'
          (mf, fatal, out :: outs, i2)

/-- Model of the exit status reported once `main` has entered the `try` at
template.py line 166.  `sys.exit(n)` raises `SystemExit(n)`.  On a fatal
error the handler at lines 179-181 raises `SystemExit(1)`, but the `finally`
block (lines 182-193) then runs and its own `sys.exit` at line 193 raises a
fresh `SystemExit`, and Python discards the in-flight exception when a
`finally` block raises.  Hence the status actually reported is always that
of line 193, and the first argument (whether a fatal error was raised) is
ignored by the computation. -/
def mainExitStatus (_fatal : Bool) (m : RunMetrics) (shutdownFinal : Bool) : ℕ :=
  if m.failure_count ≠ 0 ∨ shutdownFinal = true then 1 else 0

/-- Model of the average-duration computation of the summary line
(template.py line 187): `sum(metrics.durations) / succ if succ else 0`. -/
def avgTime (m : RunMetrics) : ℚ :=
  if m.success_count = 0 then 0 else m.durations.sum / m.success_count

/-- Model of `main` from configuration parsing onward (template.py
lines 143-193).  `libs` is the registry built at line 150 (library import
failures are outside this model).  If `parse_obj` fails, the handler at
lines 146-148 exits with status 1 before any task runs (the `try`/`finally`
of line 166 has not been entered, so nothing overrides this exit).
Otherwise the task generator (lines 160-164) yields exactly `cfg.tasks`,
never raising, the loop runs, and the exit status of line 193 is reported.
Result: (exit status, final metrics, number of `process_task` invocations). -/
def mainRun (clock : ℕ → ℚ) (shutdown : Bool)
    (libs : List (String × Capability)) (cfg : AppConfig) :
    ℕ × RunMetrics × ℕ :=
  match parse_obj cfg with
  | .error _ => (1, initMetrics, 0)
  | .ok cfg =>
      let src := cfg.tasks.map Except.ok
      let (mf, fatal, outs, _) := mainLoop clock shutdown libs src 0 initMetrics
      (mainExitStatus fatal.isSome mf shutdown, mf, outs.length)

/-! ### Unsynchronized metrics increments

The worker threads of the pool (template.py line 167) update the shared
`metrics` dict with statements such as `metrics['task_count'] += 1`
(lines 109 and 116) while holding no lock: the module creates no
`threading.Lock`, only the shutdown `Event`.  CPython executes the augmented
assignment as a dict load, an integer add, and a dict store, and the
interpreter may switch threads between those steps.  The model below gives
each of two workers the two-step program load-then-store and executes an
arbitrary interleaving (schedule) of their steps. -/

/-- Shared-counter state for two workers racing on one metrics key:
the dict entry value, and each worker's loaded value (`none` before its
load step has executed). -/
structure RaceState where
  counter : ℕ
  reg0 : Option ℕ
  reg1 : Option ℕ
deriving DecidableEq, Repr

/-- One scheduler step: worker `w` executes its next step of
`metrics[k] += 1` — the dict load if it has not loaded yet, otherwise the
dict store of its loaded value plus one. -/
def raceStep (w : Bool) (s : RaceState) : RaceState :=
  if w then
    match s.reg1 with
    | none => { s with reg1 := some s.counter }
    | some v => { s with counter := v + 1 }
  else
    match s.reg0 with
    | none => { s with reg0 := some s.counter }
    | some v => { s with counter := v + 1 }

/-- Execute a schedule (the sequence of which worker steps next). -/
def runSchedule (sched : List Bool) (s : RaceState) : RaceState :=
  sched.foldl (fun st w => raceStep w st) s

/-- A schedule in which each of the two workers performs one complete
increment: each worker is scheduled exactly twice (load, then store). -/
def completeSchedule (sched : List Bool) : Prop :=
  sched.count true = 2 ∧ sched.count false = 2

instance (sched : List Bool) : Decidable (completeSchedule sched) :=
  inferInstanceAs (Decidable (sched.count true = 2 ∧ sched.count false = 2))

/-! ### Supporting lemmas -/

/-- One step of `mainLoop` is exactly one `generatorHandlerNext` call followed
by the shutdown re-check of template.py line 170 and the submission of the
produced task: the inlined loop agrees with the handler model. -/
theorem mainLoop_agrees_generatorHandlerNext (clock : ℕ → ℚ) (shutdown : Bool)
    (libs : List (String × Capability)) (src : List (Except Exc TaskConfig))
    (i : ℕ) (m : RunMetrics) :
    mainLoop clock shutdown libs src i m =
      match generatorHandlerNext shutdown src m with
      | (.stop, _, m', _) => (m', none, [], i)
      | (.err e, _, m', _) => (m', some e, [], i)
      | (.item t, rest, m', _) =>
          if shutdown then (m', none, [], i)
          else
            let (m2, out, i', _, _) := process_task clock i t libs m'
            let (mf, fatal, outs, i2) := mainLoop clock shutdown libs rest i' m2
            (mf, fatal, out :: outs, i2) := by
  cases hs : shutdown with
  | true => cases src with
    | nil => rfl
    | cons e rest => rfl
  | false => cases src with
    | nil => rfl
    | cons e rest => cases e with
      | ok t => rfl
      | error exc => rfl

/-- The dedup-length test of the uniqueness validator is exactly the
no-duplicates property of the list. -/
theorem dedup_length_eq_iff_nodup {α : Type} [DecidableEq α] (l : List α) :
    l.dedup.length = l.length ↔ l.Nodup := by
  constructor
  · intro h
    have hsub : List.Sublist l.dedup l := l.dedup_sublist
    have heq : l.dedup = l := hsub.eq_of_length h
    rw [← heq]
    exact l.nodup_dedup
  · intro h
    rw [List.dedup_eq_self.mpr h]

/-- Concrete capability used in closed instances: compute always returns 2. -/
def echoCap : Capability := ⟨fun _ => .ok (.num 2)⟩

/-- Concrete task bound to the echo capability. -/
def echoTask : TaskConfig := ⟨"t1", [("lib_name", .str "echo")], 5⟩

/-- Concrete task whose params carry no lib_name, so the registry lookup
fails and the runner takes the failure path. -/
def orphanTask : TaskConfig := ⟨"t3", [], 1⟩

/-- Characterization of the runner on its failure paths: if the registry
lookup misses or `compute` raises, the handler of template.py lines 115-119
yields the failure tuple. -/
theorem process_task_fail_eq (clock : ℕ → ℚ) (i : ℕ)
    (task : TaskConfig) (libs : List (String × Capability)) (m : RunMetrics)
    (h : lookupLib libs task.params = none ∨
         ∃ lib e, lookupLib libs task.params = some lib ∧
           lib.compute task.params = .error e) :
    process_task clock i task libs m =
      ({ m with task_count := m.task_count + 1,
                failure_count := m.failure_count + 1 },
       ⟨task.id, none⟩, i + 1, none, ["Task " ++ task.id ++ " failed"]) := by
  rcases h with hl | ⟨lib, e, hl, hc⟩
  · simp only [process_task, process_task_body, hl]
  · simp only [process_task, process_task_body, hl, hc]

/-- Characterization of the runner on its success path (template.py
lines 107-114). -/
theorem process_task_ok_eq (clock : ℕ → ℚ) (i : ℕ)
    (task : TaskConfig) (libs : List (String × Capability)) (m : RunMetrics)
    (lib : Capability) (r : PVal)
    (hl : lookupLib libs task.params = some lib)
    (hc : lib.compute task.params = .ok r) :
    process_task clock i task libs m =
      ({ m with task_count := m.task_count + 1,
                success_count := m.success_count + 1,
                durations := m.durations ++ [clock (i + 1) - clock i],
                business_value := m.business_value + task.expected_value },
       ⟨task.id, some r⟩, i + 2, some (clock (i + 1) - clock i),
       ["Task " ++ task.id ++ " succeeded"]) := by
  simp only [process_task, process_task_body, hl, hc]

/-- On the failure paths the try body of the runner raises. -/
theorem process_task_body_err (clock : ℕ → ℚ) (i : ℕ)
    (task : TaskConfig) (libs : List (String × Capability)) (m : RunMetrics)
    (h : lookupLib libs task.params = none ∨
         ∃ lib e, lookupLib libs task.params = some lib ∧
           lib.compute task.params = .error e) :
    ∃ e, process_task_body clock i task libs m = .error e := by
  rcases h with hl | ⟨lib, e, hl, hc⟩
  · exact ⟨"Library not configured", by simp only [process_task_body, hl]⟩
  · exact ⟨e, by simp only [process_task_body, hl, hc]⟩

/-! ### Claims -/

/-- C2: every invocation of `process_task` returns a `(task.id, result)`
outcome normally (the model is a total function whose except-handler branch
covers every error of the try body) and emits exactly one log line; whenever
the body raises — missing capability or capability-internal error —
`task_count` and `failure_count` are each incremented by exactly 1 and the
failure is logged. -/
theorem C2_process_task_never_raises_and_counts_errors (clock : ℕ → ℚ) (i : ℕ)
    (task : TaskConfig) (libs : List (String × Capability)) (m : RunMetrics) :
    (process_task clock i task libs m).2.1.task_id = task.id ∧
    (process_task clock i task libs m).2.2.2.2.length = 1 ∧
    ((∃ v, process_task_body clock i task libs m = .ok v) ∨
     (∃ e, process_task_body clock i task libs m = .error e ∧
        (process_task clock i task libs m).1.task_count = m.task_count + 1 ∧
        (process_task clock i task libs m).1.failure_count = m.failure_count + 1 ∧
        (process_task clock i task libs m).2.2.2.2 =
          ["Task " ++ task.id ++ " failed"])) := by
  rcases hl : lookupLib libs task.params with _ | lib
  · rw [process_task_fail_eq clock i task libs m (Or.inl hl)]
    obtain ⟨e, he⟩ := process_task_body_err clock i task libs m (Or.inl hl)
    exact ⟨rfl, rfl, Or.inr ⟨e, he, rfl, rfl, rfl⟩⟩
  · rcases hc : lib.compute task.params with e | r
    · rw [process_task_fail_eq clock i task libs m (Or.inr ⟨lib, e, hl, hc⟩)]
      obtain ⟨e', he⟩ :=
        process_task_body_err clock i task libs m (Or.inr ⟨lib, e, hl, hc⟩)
      exact ⟨rfl, rfl, Or.inr ⟨e', he, rfl, rfl, rfl⟩⟩
    · rw [process_task_ok_eq clock i task libs m lib r hl hc]
      refine ⟨rfl, rfl, ?_⟩
      simp only [process_task_body, hl, hc]
      exact Or.inl ⟨_, rfl⟩

/-- C3: when the capability resolves and `compute` succeeds, one
`process_task` invocation increments `task_count` and `success_count` by
exactly 1, appends exactly one elapsed-duration sample, adds exactly
`expected_value` to the business-value total, leaves `failure_count` (and
every other field) unchanged, and returns a successful outcome carrying the
computed result. -/
theorem C3_process_task_success_updates (clock : ℕ → ℚ) (i : ℕ)
    (task : TaskConfig) (libs : List (String × Capability)) (m : RunMetrics)
    (lib : Capability) (r : PVal)
    (hl : lookupLib libs task.params = some lib)
    (hc : lib.compute task.params = .ok r) :
    process_task clock i task libs m =
      ({ m with task_count := m.task_count + 1,
                success_count := m.success_count + 1,
                durations := m.durations ++ [clock (i + 1) - clock i],
                business_value := m.business_value + task.expected_value },
       ⟨task.id, some r⟩, i + 2, some (clock (i + 1) - clock i),
       ["Task " ++ task.id ++ " succeeded"]) :=
  process_task_ok_eq clock i task libs m lib r hl hc

/-- Witness for C3 at a concrete successful run: echo capability, task value
5, clock reading n at the n-th call. -/
theorem C3_witness :
    process_task (fun n : ℕ => (n : ℚ)) 0 echoTask [("echo", echoCap)] initMetrics =
      ({ initMetrics with task_count := 1, success_count := 1,
                          durations := [1], business_value := 5 },
       ⟨"t1", some (.num 2)⟩, 2, some 1, ["Task t1 succeeded"]) := by
  rw [C3_process_task_success_updates (fun n : ℕ => (n : ℚ)) 0 echoTask
        [("echo", echoCap)] initMetrics echoCap (.num 2) rfl rfl]
  norm_num [initMetrics, echoTask]
  rfl

/-- C10: when the registry lookup fails or `compute` raises, `process_task`
returns the pair `(task.id, None)` and modifies only `task_count` and
`failure_count`, each by exactly 1; `success_count`, the duration list and
the business-value total are untouched (full record equality: every other
field keeps its entry value). -/
theorem C10_process_task_failure_frame (clock : ℕ → ℚ) (i : ℕ)
    (task : TaskConfig) (libs : List (String × Capability)) (m : RunMetrics)
    (h : lookupLib libs task.params = none ∨
         ∃ lib e, lookupLib libs task.params = some lib ∧
           lib.compute task.params = .error e) :
    process_task clock i task libs m =
      ({ m with task_count := m.task_count + 1,
                failure_count := m.failure_count + 1 },
       ⟨task.id, none⟩, i + 1, none, ["Task " ++ task.id ++ " failed"]) :=
  process_task_fail_eq clock i task libs m h

/-- Witness for C10 at a concrete failing run: no lib_name in the params, so
the lookup fails. -/
theorem C10_witness :
    process_task (fun n : ℕ => (n : ℚ)) 0 orphanTask [] initMetrics =
      ({ initMetrics with task_count := 1, failure_count := 1 },
       ⟨"t3", none⟩, 1, none, ["Task t3 failed"]) := by
  rw [C10_process_task_failure_frame (fun n : ℕ => (n : ℚ)) 0 orphanTask []
        initMetrics (Or.inl rfl)]
  rfl

/-- C4 counterexample: the claim asserts that an elapsed duration bracketing
the compute call is produced for failed executions as well.  At this
concrete failing input (registry lookup fails) `process_task` takes no
second clock reading and produces no duration: the measured-duration
component of the result is `none` and the duration list stays empty, so no
duration exists. -/
theorem C4_counterexample_no_duration_on_failure :
    (process_task (fun n : ℕ => (n : ℚ)) 0 orphanTask [] initMetrics).2.1 =
      ⟨"t3", none⟩ ∧
    (process_task (fun n : ℕ => (n : ℚ)) 0 orphanTask [] initMetrics).1.durations
      = [] ∧
    ¬ ∃ d : ℚ,
      (process_task (fun n : ℕ => (n : ℚ)) 0 orphanTask [] initMetrics).2.2.2.1
        = some d := by
  refine ⟨rfl, rfl, ?_⟩
  rintro ⟨d, hd⟩
  have h0 : (process_task (fun n : ℕ => (n : ℚ)) 0 orphanTask []
      initMetrics).2.2.2.1 = none := rfl
  rw [h0] at hd
  cases hd

/-- C4 amended: per invocation `task_count` rises by exactly 1 and exactly
one of the success/failure increments happens; on the success branch the
elapsed duration equals the difference of the two clock readings bracketing
the compute call and is appended as the sole new duration sample; on the
failure branch no elapsed duration is produced inside the runner and the
duration list is unchanged (only the trace decorator logs a whole-invocation
debug duration, modelled separately by `process_task_traced`). -/
theorem C4_amended_exclusive_increment_and_timing (clock : ℕ → ℚ) (i : ℕ)
    (task : TaskConfig) (libs : List (String × Capability)) (m : RunMetrics) :
    (process_task clock i task libs m).1.task_count = m.task_count + 1 ∧
    (((process_task clock i task libs m).1.success_count = m.success_count + 1 ∧
      (process_task clock i task libs m).1.failure_count = m.failure_count ∧
      (process_task clock i task libs m).2.2.2.1 =
        some (clock (i + 1) - clock i) ∧
      (process_task clock i task libs m).1.durations =
        m.durations ++ [clock (i + 1) - clock i]) ∨
     ((process_task clock i task libs m).1.success_count = m.success_count ∧
      (process_task clock i task libs m).1.failure_count = m.failure_count + 1 ∧
      (process_task clock i task libs m).2.2.2.1 = none ∧
      (process_task clock i task libs m).1.durations = m.durations)) := by
  rcases hl : lookupLib libs task.params with _ | lib
  · rw [process_task_fail_eq clock i task libs m (Or.inl hl)]
    exact ⟨rfl, Or.inr ⟨rfl, rfl, rfl, rfl⟩⟩
  · rcases hc : lib.compute task.params with e | r
    · rw [process_task_fail_eq clock i task libs m (Or.inr ⟨lib, e, hl, hc⟩)]
      exact ⟨rfl, Or.inr ⟨rfl, rfl, rfl, rfl⟩⟩
    · rw [process_task_ok_eq clock i task libs m lib r hl hc]
      exact ⟨rfl, Or.inl ⟨rfl, rfl, rfl, rfl⟩⟩

/-- C6: when advancing the underlying generator raises an internal error and
shutdown is not set, the stream wrapper re-raises that very error (so it
never turns it into an item or end-of-sequence, i.e. never silently skips),
increments the generator-error count by exactly 1, leaves every other
metrics field and the rest of the stream intact, and emits exactly one log
entry for it. -/
theorem C6_stream_error_logged_counted_reraised (e : Exc)
    (rest : List (Except Exc TaskConfig)) (m : RunMetrics) :
    (generatorHandlerNext false (Except.error e :: rest) m).1 = .err e ∧
    (generatorHandlerNext false (Except.error e :: rest) m).2.1 = rest ∧
    genErrorCount (generatorHandlerNext false (Except.error e :: rest) m).2.2.1
      = genErrorCount m + 1 ∧
    (generatorHandlerNext false (Except.error e :: rest) m).2.2.1.task_count
      = m.task_count ∧
    (generatorHandlerNext false (Except.error e :: rest) m).2.2.1.success_count
      = m.success_count ∧
    (generatorHandlerNext false (Except.error e :: rest) m).2.2.1.failure_count
      = m.failure_count ∧
    (generatorHandlerNext false (Except.error e :: rest) m).2.2.1.durations
      = m.durations ∧
    (generatorHandlerNext false (Except.error e :: rest) m).2.2.2 =
      ["Error in generator: " ++ e] :=
  ⟨rfl, rfl, rfl, rfl, rfl, rfl, rfl, rfl⟩

/-- C7: a `__next__` call made while the shutdown flag is set raises
`StopIteration` at once, for every remaining source whatsoever, returning
the underlying generator state and the metrics untouched and logging
nothing. -/
theorem C7_shutdown_short_circuits_stream (src : List (Except Exc TaskConfig))
    (m : RunMetrics) :
    generatorHandlerNext true src m = (.stop, src, m, []) :=
  rfl

/-- C8: any configuration document with duplicate library names or duplicate
task ids is rejected by the validator (pydantic wraps the `ValueError` into a
`ValidationError`, caught at template.py line 146 — a controlled failure, not
a crash), and the run exits with status 1 having invoked `process_task` zero
times and leaving the metrics at their initial value. -/
theorem C8_duplicate_config_rejected (cfg : AppConfig)
    (h : ¬ (cfg.libraries.map LibraryConfig.name).Nodup ∨
         ¬ (cfg.tasks.map TaskConfig.id).Nodup)
    (clock : ℕ → ℚ) (shutdown : Bool) (libs : List (String × Capability)) :
    (∃ e, parse_obj cfg = .error e) ∧
    mainRun clock shutdown libs cfg = (1, initMetrics, 0) := by
  have hdup :
      (cfg.libraries.map LibraryConfig.name).dedup.length ≠ cfg.libraries.length ∨
      (cfg.tasks.map TaskConfig.id).dedup.length ≠ cfg.tasks.length := by
    rcases h with h | h
    · left
      rw [show cfg.libraries.length = (cfg.libraries.map LibraryConfig.name).length
            from (List.length_map _ _).symm]
      exact fun hlen => h ((dedup_length_eq_iff_nodup _).mp hlen)
    · right
      rw [show cfg.tasks.length = (cfg.tasks.map TaskConfig.id).length
            from (List.length_map _ _).symm]
      exact fun hlen => h ((dedup_length_eq_iff_nodup _).mp hlen)
  have hc : ∃ e, check_unique_libraries_and_tasks cfg = .error e := by
    unfold check_unique_libraries_and_tasks
    rcases hdup with h1 | h2
    · rw [if_pos h1]
      exact ⟨_, rfl⟩
    · by_cases h1 :
        (cfg.libraries.map LibraryConfig.name).dedup.length = cfg.libraries.length
      · rw [if_neg (by simpa using h1), if_pos h2]
        exact ⟨_, rfl⟩
      · rw [if_pos h1]
        exact ⟨_, rfl⟩
  have hp : ∃ e, parse_obj cfg = .error e := by
    unfold parse_obj
    by_cases ht : cfg.threads = 0
    · rw [if_pos ht]
      exact ⟨_, rfl⟩
    · rw [if_neg ht]
      exact hc
  obtain ⟨e, he⟩ := hp
  refine ⟨⟨e, he⟩, ?_⟩
  simp only [mainRun, he]

/-- Witness for C8: a concrete configuration with the duplicate task id
`t1`, rejected with exit status 1 and zero tasks executed. -/
theorem C8_witness :
    (∃ e, parse_obj ⟨1, [], [⟨"t1", [], 0⟩, ⟨"t1", [], 0⟩]⟩ = .error e) ∧
    mainRun (fun n : ℕ => (n : ℚ)) false [] ⟨1, [], [⟨"t1", [], 0⟩, ⟨"t1", [], 0⟩]⟩
      = (1, initMetrics, 0) :=
  C8_duplicate_config_rejected ⟨1, [], [⟨"t1", [], 0⟩, ⟨"t1", [], 0⟩]⟩
    (Or.inr (by decide)) (fun n : ℕ => (n : ℚ)) false []

/-- C9: a validated batch with an empty task list and no shutdown completes
with `task_count = 0`, `failure_count = 0`, reported average duration 0, exit
status 0, and zero `process_task` invocations. -/
theorem C9_empty_batch_clean_exit (clock : ℕ → ℚ)
    (libs : List (String × Capability)) (cfg : AppConfig)
    (hT : cfg.tasks = []) (hok : parse_obj cfg = .ok cfg) :
    (mainRun clock false libs cfg).1 = 0 ∧
    (mainRun clock false libs cfg).2.1.task_count = 0 ∧
    (mainRun clock false libs cfg).2.1.failure_count = 0 ∧
    avgTime (mainRun clock false libs cfg).2.1 = 0 ∧
    (mainRun clock false libs cfg).2.2 = 0 := by
  have hrun : mainRun clock false libs cfg = (0, initMetrics, 0) := by
    simp only [mainRun, hok, hT]
    rfl
  rw [hrun]
  exact ⟨rfl, rfl, rfl, rfl, rfl⟩

/-- Witness for C9: the concrete empty batch with 4 worker threads. -/
theorem C9_witness :
    (mainRun (fun n : ℕ => (n : ℚ)) false [] ⟨4, [], []⟩).1 = 0 ∧
    (mainRun (fun n : ℕ => (n : ℚ)) false [] ⟨4, [], []⟩).2.1.task_count = 0 ∧
    (mainRun (fun n : ℕ => (n : ℚ)) false [] ⟨4, [], []⟩).2.1.failure_count = 0 ∧
    avgTime (mainRun (fun n : ℕ => (n : ℚ)) false [] ⟨4, [], []⟩).2.1 = 0 ∧
    (mainRun (fun n : ℕ => (n : ℚ)) false [] ⟨4, [], []⟩).2.2 = 0 :=
  C9_empty_batch_clean_exit (fun n : ℕ => (n : ℚ)) [] ⟨4, [], []⟩ rfl rfl

/-- C1: at a run whose stream raises an uncontained production error while
no task has failed and no shutdown was requested, the loop aborts with the
fatal error attributed (`generator_errors` bumped, error re-raised), yet the
reported exit status is 0: the `sys.exit(1)` of the except block at
template.py lines 179-181 is superseded by the unconditional `sys.exit` of
the `finally` block at line 193, which looks only at `failure_count` and the
shutdown flag.  The claim demands a non-zero status here. -/
theorem C1_fatal_error_still_exits_zero :
    (mainLoop (fun n : ℕ => (n : ℚ)) false [] [Except.error "boom"] 0
        initMetrics).2.1 = some "boom" ∧
    (mainLoop (fun n : ℕ => (n : ℚ)) false [] [Except.error "boom"] 0
        initMetrics).1.failure_count = 0 ∧
    (mainLoop (fun n : ℕ => (n : ℚ)) false [] [Except.error "boom"] 0
        initMetrics).1.generator_errors = some 1 ∧
    mainExitStatus true
      (mainLoop (fun n : ℕ => (n : ℚ)) false [] [Except.error "boom"] 0
        initMetrics).1 false = 0 :=
  ⟨rfl, rfl, rfl, rfl⟩

/-- C5: the atomicity the claim asserts fails on the code, which guards the
shared metrics dict with no lock.  Under the two-step (dict load, dict
store) semantics of the unsynchronized `metrics[k] += 1`, the interleaving
load-load-store-store of two workers is a complete schedule (each worker
performs one full increment) whose final counter is 1, losing an increment,
whereas a serialized schedule yields 2; hence not every complete schedule
preserves both increments. -/
theorem C5_unsynchronized_increment_loses_an_update :
    completeSchedule [false, true, false, true] ∧
    (runSchedule [false, true, false, true] ⟨0, none, none⟩).counter = 1 ∧
    (runSchedule [false, false, true, true] ⟨0, none, none⟩).counter = 2 ∧
    ¬ (∀ sched, completeSchedule sched →
        (runSchedule sched ⟨0, none, none⟩).counter = 2) := by
  refine ⟨by decide, by decide, by decide, fun hall => ?_⟩
  have h1 := hall [false, true, false, true] (by decide)
  exact absurd h1 (by decide)

end Pcpa
